import Mathlib

/-!
# Digital clock + stopwatch firmware (8051): model and verified properties

Shallow embedding of `src/digital_clock_stopwatch.c`.

* The globals `hour`, `minute`, `second` (`unsigned char`), `mode`, `running`
  (`bit`) and `count` (`unsigned int`, 16 bits on the 8051) become fields of
  `State`; the timer special-function registers written by the program are the
  record `Timer0`.
* `unsigned char` arithmetic is `Nat` arithmetic modulo `256`, `unsigned int`
  arithmetic is `Nat` arithmetic modulo `65536`.
* A `bit` is a `Bool`: `false` is `0`, `true` is `1`.  For `mode`, `0` is the
  clock mode and `1` the stopwatch mode.  For an input pin, `false` is the LOW
  level (pressed, the pins are active low) and `true` is HIGH.
* `display_time` is modelled on the output pins it writes (`Ports`): it returns
  the pin states held during its six dwells and the pin state on return, or
  `none` when a read of `SEGMENT_CODE` falls outside the table.
* Time-base arithmetic counts oscillator cycles; the oscillator frequency is
  the one named in the comment of line 99.
* The interrupt handler and one pass of the main loop are the two kinds of
  step of the system; each is a function `State → State`.  Steps are atomic:
  an interrupt that arrives in the middle of a pass (for instance during a
  `delay_ms` call) is ordered before or after that pass.
-/

namespace DigitalClock

/-! ## Data model -/

/-- The three clock globals of line 52: `unsigned char hour, minute, second`. -/
structure ClockTime where
  hour : Nat
  minute : Nat
  second : Nat
deriving DecidableEq, Repr

/-- Timer special-function registers the program writes (`init_timer`, `timer0_ISR`). -/
structure Timer0 where
  TMOD : Nat
  TH0 : Nat
  TL0 : Nat
  ET0 : Bool
  EA : Bool
  TR0 : Bool
deriving DecidableEq, Repr

/-- The program state: the globals of lines 52-55 and the timer registers. -/
structure State where
  time : ClockTime
  mode : Bool
  running : Bool
  count : Nat
  sfr : Timer0
deriving DecidableEq, Repr

/-- Mode value `0` of the source: clock mode. -/
abbrev CLOCK : Bool := false

/-- Mode value `1` of the source: stopwatch mode. -/
abbrev STOPWATCH : Bool := true

/-- Level of an active-low input pin that reads `0`. -/
abbrev LOW : Bool := false

/-- Level of an active-low input pin that reads `1`. -/
abbrev HIGH : Bool := true

/-- A clock time is valid when every field is inside its range. -/
def ClockTime.Valid (t : ClockTime) : Prop :=
  t.hour < 24 ∧ t.minute < 60 ∧ t.second < 60

instance (t : ClockTime) : Decidable t.Valid := by
  unfold ClockTime.Valid; infer_instance

/-- Initial values of the globals (lines 52-55); the timer registers hold
whatever the hardware holds, `regs`. -/
def initial (regs : Timer0) : State :=
  { time := { hour := 0, minute := 0, second := 0 }
    mode := false
    running := false
    count := 0
    sfr := regs }

/-! ## Operations -/

/-- Function `update_time` (lines 126-141): one-second advance with nested carries.
Each `++` is an `unsigned char` increment, hence modulo `256`. -/
def update_time (t : ClockTime) : ClockTime :=
  let second := (t.second + 1) % 256
  if second ≥ 60 then
    let minute := (t.minute + 1) % 256
    if minute ≥ 60 then
      let hour := (t.hour + 1) % 256
      if hour ≥ 24 then
        { hour := 0, minute := 0, second := 0 }
      else
        { hour := hour, minute := 0, second := 0 }
    else
      { hour := t.hour, minute := minute, second := 0 }
  else
    { hour := t.hour, minute := t.minute, second := second }

/-- Function `timer0_ISR` (lines 107-123): reload the timer, count the tick, and
every 20th tick reset the counter and advance the time when the mode allows it.
The increment `count++` is an `unsigned int` increment, hence modulo `65536`. -/
def timer0_ISR (st : State) : State :=
  let sfr : Timer0 := { st.sfr with TH0 := 0x3C, TL0 := 0xB0 }
  let count := (st.count + 1) % 65536
  if count ≥ 20 then
    if st.mode = false then
      { st with sfr := sfr, count := 0, time := update_time st.time }
    else if st.mode = true ∧ st.running = true then
      { st with sfr := sfr, count := 0, time := update_time st.time }
    else
      { st with sfr := sfr, count := 0 }
  else
    { st with sfr := sfr, count := count }

/-- Function `init_timer` (lines 96-104): timer 0 in 16-bit mode, reload value
loaded, timer interrupt and global interrupts enabled, timer started. -/
def init_timer (st : State) : State :=
  let r1 : Timer0 := { st.sfr with TMOD := 0x01 }
  let r2 : Timer0 := { r1 with TH0 := 0x3C }
  let r3 : Timer0 := { r2 with TL0 := 0xB0 }
  let r4 : Timer0 := { r3 with ET0 := true }
  let r5 : Timer0 := { r4 with EA := true }
  let r6 : Timer0 := { r5 with TR0 := true }
  { st with sfr := r6 }

/-- State at the entry of the main loop: initial globals, then `init_timer`,
which writes every register of `Timer0`. -/
def loop_entry : State :=
  init_timer (initial { TMOD := 0, TH0 := 0, TL0 := 0, ET0 := false, EA := false, TR0 := false })

/-- Function `delay_ms` (lines 164-169): two nested counting loops with an empty
body over the locals `i` and `j`; no global and no register is written. -/
def delay_ms (_ms : Nat) (st : State) : State := st

/-- Mode-switch handling of the main loop (lines 76-81). -/
def handle_mode_switch (MODE_SWITCH : Bool) (st : State) : State :=
  if MODE_SWITCH = false then
    let st1 := delay_ms 200 st
    let st2 := { st1 with mode := !st1.mode }
    { st2 with time := { hour := 0, minute := 0, second := 0 } }
  else
    st

/-- Start/stop button handling of the main loop (lines 84-91). -/
def handle_start_btn (START_BTN : Bool) (st : State) : State :=
  if st.mode = true then
    if START_BTN = false then
      let st1 := delay_ms 200 st
      { st1 with running := !st1.running }
    else
      st
  else
    st

/-- Input handling of one pass of the main loop (lines 75-91): the mode switch
is examined first, then the button, which sees the mode left by the first part.
The parameters are the levels read from the two pins during the pass. -/
def main_loop_inputs (MODE_SWITCH START_BTN : Bool) (st : State) : State :=
  handle_start_btn START_BTN (handle_mode_switch MODE_SWITCH st)

/-- Table `SEGMENT_CODE` (lines 38-49). -/
def SEGMENT_CODE : List Nat :=
  [0xC0, 0xF9, 0xA4, 0xB0, 0x99, 0x92, 0x82, 0xF8, 0x80, 0x90]

/-- The local buffer `digits[6]` filled by `display_time` (lines 146-153). -/
def display_time_digits (t : ClockTime) : List Nat :=
  [t.hour / 10, t.hour % 10, t.minute / 10, t.minute % 10, t.second / 10, t.second % 10]

/-- The six table reads `SEGMENT_CODE[digits[i]]` of `display_time` (lines 155-160),
in order; `none` is a read outside the table. -/
def display_time_lookups (t : ClockTime) : List (Option Nat) :=
  (display_time_digits t).map (fun d => SEGMENT_CODE[d]?)

/-! ## Derived notions used in the statements -/

/-- Seconds since midnight of a clock time. -/
def ClockTime.toSeconds (t : ClockTime) : Nat :=
  3600 * t.hour + 60 * t.minute + t.second

/-- Clock time of a number of seconds since midnight. -/
def ClockTime.ofSeconds (T : Nat) : ClockTime :=
  { hour := T / 3600, minute := (T / 60) % 60, second := T % 60 }

/-- Range invariant of the system: the clock is valid and the tick counter is below 20. -/
def State.Inv (st : State) : Prop :=
  st.time.Valid ∧ st.count < 20

/-- States reachable from an initial state by interrupt-handler calls and
main-loop passes, in any interleaving and under any input levels. -/
inductive Reachable : State → Prop
  | init (regs : Timer0) : Reachable (initial regs)
  | tick {st : State} : Reachable st → Reachable (timer0_ISR st)
  | pass {st : State} (MODE_SWITCH START_BTN : Bool) :
      Reachable st → Reachable (main_loop_inputs MODE_SWITCH START_BTN st)

/-! ## Segment glyphs, specification arithmetic, time base and display pins -/

/-- Segments lit by a pattern on the active-low bus: the indices `i` in `0..6`
(segment `a` is bit 0, ..., segment `g` is bit 6) whose bit is cleared. -/
def lit_segments (pattern : Nat) : List Nat :=
  (List.range 7).filter (fun i => !pattern.testBit i)

/-- Reference glyphs of the decimal digits on a standard seven-segment layout, as
lists of lit segments with `a = 0`, `b = 1`, ..., `g = 6`:
0 = abcdef, 1 = bc, 2 = abdeg, 3 = abcdg, 4 = bcfg, 5 = acdfg, 6 = acdefg, 7 = abc,
8 = abcdefg, 9 = abcdfg. -/
def standard_glyph : Nat → List Nat
  | 0 => [0, 1, 2, 3, 4, 5]
  | 1 => [1, 2]
  | 2 => [0, 1, 3, 4, 6]
  | 3 => [0, 1, 2, 3, 6]
  | 4 => [1, 2, 5, 6]
  | 5 => [0, 2, 3, 5, 6]
  | 6 => [0, 2, 3, 4, 5, 6]
  | 7 => [0, 1, 2]
  | 8 => [0, 1, 2, 3, 4, 5, 6]
  | 9 => [0, 1, 2, 3, 5, 6]
  | _ => []

/-- Advance arithmetic as the specification words it: three checks with `==`, each made
on its own and in the order seconds, minutes, hours. -/
def advance_spec (t : ClockTime) : ClockTime :=
  let seconds := t.second + 1
  let minutes := if seconds = 60 then t.minute + 1 else t.minute
  let seconds := if seconds = 60 then 0 else seconds
  let hours := if minutes = 60 then t.hour + 1 else t.hour
  let minutes := if minutes = 60 then 0 else minutes
  let hours := if hours = 24 then 0 else hours
  { hour := hours, minute := minutes, second := seconds }

/-- The 16-bit reload value `TH0:TL0` held by the timer registers. -/
def Timer0.reload (r : Timer0) : Nat :=
  256 * r.TH0 + r.TL0

/-- Timer counts from the reload value to the overflow of the 16-bit timer (mode 1). -/
def Timer0.counts_to_overflow (r : Timer0) : Nat :=
  65536 - r.reload

/-- Oscillator frequency in Hz named by the comment of line 99 (11.0592 MHz). -/
def OSC_HZ : Nat := 11059200

/-- Oscillator cycles per timer count on the 8051 (one machine cycle). -/
def OSC_PER_COUNT : Nat := 12

/-- Ticks per second: the threshold of line 113. -/
def TICKS_PER_SECOND : Nat := 20

/-- Oscillator cycles between two timer overflows with the registers `r` reloaded. -/
def Timer0.period_cycles (r : Timer0) : Nat :=
  r.counts_to_overflow * OSC_PER_COUNT

/-- Oscillator cycles that pass while the handler counts one second. -/
def Timer0.second_cycles (r : Timer0) : Nat :=
  TICKS_PER_SECOND * r.period_cycles

/-- Output pins driven by `display_time`: the six digit-select lines `DIGIT1..DIGIT6`
(P1.0-P1.5, `false` is LOW, the enabled level) and the segment bus `SEGMENT_PORT` (P2). -/
structure Ports where
  DIGIT1 : Bool
  DIGIT2 : Bool
  DIGIT3 : Bool
  DIGIT4 : Bool
  DIGIT5 : Bool
  DIGIT6 : Bool
  SEGMENT_PORT : Nat
deriving DecidableEq, Repr

/-- The six digit-select lines in display order: hours tens first, seconds ones last. -/
def Ports.lines (p : Ports) : List Bool :=
  [p.DIGIT1, p.DIGIT2, p.DIGIT3, p.DIGIT4, p.DIGIT5, p.DIGIT6]

/-- Function `display_time` (lines 144-161) as the sequence of its port writes.  The result
is the list of the six port states held during the six dwells (`delay_ms(2)`), in order,
and the port state on return; `none` is a read outside `SEGMENT_CODE`. -/
def display_time (t : ClockTime) (p : Ports) : Option (List Ports × Ports) := do
  let digits := display_time_digits t
  let p := { p with DIGIT1 := false }
  let p := { p with SEGMENT_PORT := ← SEGMENT_CODE[digits.getD 0 0]? }
  let w1 := p
  let p := { p with DIGIT1 := true }
  let p := { p with DIGIT2 := false }
  let p := { p with SEGMENT_PORT := ← SEGMENT_CODE[digits.getD 1 0]? }
  let w2 := p
  let p := { p with DIGIT2 := true }
  let p := { p with DIGIT3 := false }
  let p := { p with SEGMENT_PORT := ← SEGMENT_CODE[digits.getD 2 0]? }
  let w3 := p
  let p := { p with DIGIT3 := true }
  let p := { p with DIGIT4 := false }
  let p := { p with SEGMENT_PORT := ← SEGMENT_CODE[digits.getD 3 0]? }
  let w4 := p
  let p := { p with DIGIT4 := true }
  let p := { p with DIGIT5 := false }
  let p := { p with SEGMENT_PORT := ← SEGMENT_CODE[digits.getD 4 0]? }
  let w5 := p
  let p := { p with DIGIT5 := true }
  let p := { p with DIGIT6 := false }
  let p := { p with SEGMENT_PORT := ← SEGMENT_CODE[digits.getD 5 0]? }
  let w6 := p
  let p := { p with DIGIT6 := true }
  pure ([w1, w2, w3, w4, w5, w6], p)

/-- The six segment-bus patterns `display_time` drives during its dwells, in order. -/
def display_time_patterns (t : ClockTime) (p : Ports) : Option (List Nat) :=
  (display_time t p).map (fun r => r.1.map (fun w => w.SEGMENT_PORT))

/-! ## Helper lemmas -/

theorem update_time_valid (t : ClockTime) (h : t.Valid) : (update_time t).Valid := by
  obtain ⟨hh, hm, hs⟩ := h
  unfold update_time
  simp only [ClockTime.Valid]
  split_ifs <;> simp only [] <;> omega

theorem update_time_toSeconds (t : ClockTime) (h : t.Valid) :
    (update_time t).toSeconds = (t.toSeconds + 1) % 86400 := by
  obtain ⟨hh, hm, hs⟩ := h
  unfold update_time
  simp only [ClockTime.toSeconds]
  split_ifs <;> simp only [] <;> omega

theorem ofSeconds_toSeconds (t : ClockTime) (h : t.Valid) :
    ClockTime.ofSeconds t.toSeconds = t := by
  obtain ⟨hh, hm, hs⟩ := h
  cases t with
  | mk a b c =>
    simp only [ClockTime.ofSeconds, ClockTime.toSeconds, ClockTime.mk.injEq] at *
    omega

theorem update_time_iterate_valid (n : Nat) (t : ClockTime) (h : t.Valid) :
    (Nat.iterate update_time n t).Valid := by
  induction n generalizing t with
  | zero => exact h
  | succ k ih => exact ih (update_time t) (update_time_valid t h)

theorem update_time_iterate_toSeconds (n : Nat) (t : ClockTime) (h : t.Valid) :
    (Nat.iterate update_time n t).toSeconds = (t.toSeconds + n) % 86400 := by
  induction n generalizing t with
  | zero =>
    obtain ⟨hh, hm, hs⟩ := h
    simp only [Function.iterate_zero, id_eq, ClockTime.toSeconds]
    omega
  | succ k ih =>
    rw [Function.iterate_succ_apply, ih (update_time t) (update_time_valid t h),
      update_time_toSeconds t h]
    omega

theorem update_time_iterate_eq (n : Nat) (t : ClockTime) (h : t.Valid) :
    Nat.iterate update_time n t = ClockTime.ofSeconds ((t.toSeconds + n) % 86400) := by
  rw [← update_time_iterate_toSeconds n t h]
  exact (ofSeconds_toSeconds _ (update_time_iterate_valid n t h)).symm

/-- Effect of one interrupt on every field, for a tick counter below 20. -/
theorem timer0_ISR_fields (st : State) (hc : st.count < 20) :
    (timer0_ISR st).mode = st.mode ∧ (timer0_ISR st).running = st.running ∧
    (timer0_ISR st).count = (st.count + 1) % 20 ∧
    (timer0_ISR st).time =
      (if st.count = 19 ∧ (st.mode = false ∨ st.running = true)
        then update_time st.time else st.time) ∧
    (timer0_ISR st).sfr = { st.sfr with TH0 := 0x3C, TL0 := 0xB0 } := by
  have e : (st.count + 1) % 65536 = st.count + 1 := Nat.mod_eq_of_lt (by omega)
  unfold timer0_ISR
  simp only [e]
  by_cases h19 : st.count = 19
  · have hge : st.count + 1 ≥ 20 := by omega
    have hmod : (st.count + 1) % 20 = 0 := by omega
    rw [if_pos hge, hmod]
    cases hm : st.mode <;> cases hr : st.running <;> simp [h19]
  · have hlt : ¬ st.count + 1 ≥ 20 := by omega
    have hmod : (st.count + 1) % 20 = st.count + 1 := by omega
    rw [if_neg hlt, hmod]
    simp [h19]

/-- Effect of `n` consecutive interrupts, for a tick counter below 20: the counter
runs modulo 20 and the time is advanced once per completed group of 20 ticks,
when the mode and the run flag let it advance. -/
theorem timer0_ISR_iterate_fields (n : Nat) (st : State) (hc : st.count < 20) :
    (Nat.iterate timer0_ISR n st).mode = st.mode ∧
    (Nat.iterate timer0_ISR n st).running = st.running ∧
    (Nat.iterate timer0_ISR n st).count = (st.count + n) % 20 ∧
    (Nat.iterate timer0_ISR n st).time =
      (if st.mode = false ∨ st.running = true
        then Nat.iterate update_time ((st.count + n) / 20) st.time else st.time) := by
  induction n with
  | zero =>
    have h0 : (st.count + 0) / 20 = 0 := by omega
    have h1 : (st.count + 0) % 20 = st.count := by omega
    simp only [Function.iterate_zero, id_eq, h0, h1, ite_self, and_self]
  | succ k ih =>
    obtain ⟨im, ir, ic, it⟩ := ih
    have hlt : (Nat.iterate timer0_ISR k st).count < 20 := by rw [ic]; omega
    obtain ⟨sm, sr, sc, st', -⟩ := timer0_ISR_fields _ hlt
    rw [Function.iterate_succ_apply']
    refine ⟨sm.trans im, sr.trans ir, ?_, ?_⟩
    · rw [sc, ic]; omega
    · rw [st', it, im, ir, ic]
      by_cases ha : st.mode = false ∨ st.running = true
      · simp only [ha, and_true, if_true]
        by_cases h19 : (st.count + k) % 20 = 19
        · have hq : (st.count + (k + 1)) / 20 = (st.count + k) / 20 + 1 := by omega
          rw [if_pos h19, hq, Function.iterate_succ_apply']
        · have hq : (st.count + (k + 1)) / 20 = (st.count + k) / 20 := by omega
          rw [if_neg h19, hq]
      · simp only [ha, and_false, if_false]

/-- In stopwatch mode with the run flag clear, an interrupt leaves time, mode and
run flag as they are, whatever the tick counter holds. -/
theorem timer0_ISR_stopped (st : State) (hm : st.mode = true) (hr : st.running = false) :
    (timer0_ISR st).time = st.time ∧ (timer0_ISR st).mode = true ∧
    (timer0_ISR st).running = false := by
  unfold timer0_ISR
  simp only [hm, hr]
  split_ifs <;> simp_all

theorem timer0_ISR_iterate_stopped (n : Nat) (st : State) (hm : st.mode = true)
    (hr : st.running = false) :
    (Nat.iterate timer0_ISR n st).time = st.time ∧ (Nat.iterate timer0_ISR n st).mode = true ∧
    (Nat.iterate timer0_ISR n st).running = false := by
  induction n with
  | zero => exact ⟨rfl, hm, hr⟩
  | succ k ih =>
    obtain ⟨it, im, ir⟩ := ih
    obtain ⟨st', sm, sr⟩ := timer0_ISR_stopped _ im ir
    rw [Function.iterate_succ_apply']
    exact ⟨st'.trans it, sm, sr⟩

theorem timer0_ISR_inv (st : State) (h : st.Inv) : (timer0_ISR st).Inv := by
  obtain ⟨hv, hc⟩ := h
  obtain ⟨-, -, sc, st', -⟩ := timer0_ISR_fields st hc
  refine ⟨?_, ?_⟩
  · rw [st']
    split_ifs
    · exact update_time_valid _ hv
    · exact hv
  · rw [sc]; omega

theorem main_loop_inputs_inv (ms sb : Bool) (st : State) (h : st.Inv) :
    (main_loop_inputs ms sb st).Inv := by
  obtain ⟨hv, hc⟩ := h
  unfold main_loop_inputs handle_start_btn handle_mode_switch delay_ms
  cases ms <;> cases sb <;> cases hm : st.mode <;>
    simp [State.Inv, hm, hc, hv] <;> decide

/-- The handler reloads `TH0:TL0` and leaves the other timer registers alone, whatever
the tick counter holds. -/
theorem timer0_ISR_sfr (st : State) :
    (timer0_ISR st).sfr = { st.sfr with TH0 := 0x3C, TL0 := 0xB0 } := by
  unfold timer0_ISR
  simp only []
  split_ifs <;> rfl

/-- Every read of `SEGMENT_CODE` at an index below 10 succeeds. -/
theorem SEGMENT_CODE_read (d : Nat) (h : d < 10) : ∃ c, SEGMENT_CODE[d]? = some c := by
  have hl : d < SEGMENT_CODE.length := h
  exact ⟨SEGMENT_CODE[d], List.getElem?_eq_getElem hl⟩

/-- Exact trace of `display_time` on a valid time: the six dwell states and the state on
return, for any entry state of the pins. -/
theorem display_time_trace (t : ClockTime) (hv : t.Valid) (p : Ports) :
    ∃ c1 c2 c3 c4 c5 c6 : Nat,
      SEGMENT_CODE[t.hour / 10]? = some c1 ∧ SEGMENT_CODE[t.hour % 10]? = some c2 ∧
      SEGMENT_CODE[t.minute / 10]? = some c3 ∧ SEGMENT_CODE[t.minute % 10]? = some c4 ∧
      SEGMENT_CODE[t.second / 10]? = some c5 ∧ SEGMENT_CODE[t.second % 10]? = some c6 ∧
      display_time t p = some
        ([ { p with DIGIT1 := false, SEGMENT_PORT := c1 },
           { p with DIGIT1 := true, DIGIT2 := false, SEGMENT_PORT := c2 },
           { p with DIGIT1 := true, DIGIT2 := true, DIGIT3 := false, SEGMENT_PORT := c3 },
           { p with DIGIT1 := true, DIGIT2 := true, DIGIT3 := true, DIGIT4 := false,
                    SEGMENT_PORT := c4 },
           { p with DIGIT1 := true, DIGIT2 := true, DIGIT3 := true, DIGIT4 := true,
                    DIGIT5 := false, SEGMENT_PORT := c5 },
           { DIGIT1 := true, DIGIT2 := true, DIGIT3 := true, DIGIT4 := true,
             DIGIT5 := true, DIGIT6 := false, SEGMENT_PORT := c6 } ],
         { DIGIT1 := true, DIGIT2 := true, DIGIT3 := true, DIGIT4 := true,
           DIGIT5 := true, DIGIT6 := true, SEGMENT_PORT := c6 }) := by
  obtain ⟨hh, hm, hs⟩ := hv
  obtain ⟨c1, e1⟩ := SEGMENT_CODE_read (t.hour / 10) (by omega)
  obtain ⟨c2, e2⟩ := SEGMENT_CODE_read (t.hour % 10) (by omega)
  obtain ⟨c3, e3⟩ := SEGMENT_CODE_read (t.minute / 10) (by omega)
  obtain ⟨c4, e4⟩ := SEGMENT_CODE_read (t.minute % 10) (by omega)
  obtain ⟨c5, e5⟩ := SEGMENT_CODE_read (t.second / 10) (by omega)
  obtain ⟨c6, e6⟩ := SEGMENT_CODE_read (t.second % 10) (by omega)
  refine ⟨c1, c2, c3, c4, c5, c6, e1, e2, e3, e4, e5, e6, ?_⟩
  simp [display_time, display_time_digits, e1, e2, e3, e4, e5, e6]

/-- The handler never writes `mode` or `running`, whatever the tick counter holds. -/
theorem timer0_ISR_mode_running (st : State) :
    (timer0_ISR st).mode = st.mode ∧ (timer0_ISR st).running = st.running := by
  unfold timer0_ISR
  simp only []
  split_ifs <;> exact ⟨rfl, rfl⟩

theorem timer0_ISR_iterate_mode_running (n : Nat) (st : State) :
    (Nat.iterate timer0_ISR n st).mode = st.mode ∧
    (Nat.iterate timer0_ISR n st).running = st.running := by
  induction n with
  | zero => exact ⟨rfl, rfl⟩
  | succ k ih =>
    rw [Function.iterate_succ_apply']
    obtain ⟨hm, hr⟩ := timer0_ISR_mode_running (Nat.iterate timer0_ISR k st)
    exact ⟨hm.trans ih.1, hr.trans ih.2⟩

/-- A pass that reads the mode switch LOW and the button HIGH. -/
theorem main_loop_inputs_switch (st : State) :
    main_loop_inputs LOW HIGH st
      = { st with mode := !st.mode, time := { hour := 0, minute := 0, second := 0 } } := by
  unfold main_loop_inputs handle_start_btn handle_mode_switch delay_ms
  cases hm : st.mode <;> simp [hm]

/-- A pass in stopwatch mode that reads the mode switch HIGH and the button LOW. -/
theorem main_loop_inputs_button (st : State) (hm : st.mode = true) :
    main_loop_inputs HIGH LOW st = { st with running := !st.running } := by
  unfold main_loop_inputs handle_start_btn handle_mode_switch delay_ms
  simp [hm]

theorem main_loop_inputs_switch_iterate (k : Nat) (st : State) :
    (Nat.iterate (main_loop_inputs LOW HIGH) k st).mode = Nat.iterate not k st.mode := by
  induction k with
  | zero => rfl
  | succ j ih =>
    rw [Function.iterate_succ_apply', Function.iterate_succ_apply', main_loop_inputs_switch, ← ih]

theorem main_loop_inputs_button_iterate (k : Nat) (st : State) (hm : st.mode = true) :
    (Nat.iterate (main_loop_inputs HIGH LOW) k st).mode = true ∧
    (Nat.iterate (main_loop_inputs HIGH LOW) k st).running = Nat.iterate not k st.running := by
  induction k with
  | zero => exact ⟨hm, rfl⟩
  | succ j ih =>
    rw [Function.iterate_succ_apply', Function.iterate_succ_apply',
      main_loop_inputs_button _ ih.1, ← ih.2]
    exact ⟨ih.1, rfl⟩

/-- Negating a bit `k` times gives the bit back exactly when `k` is even. -/
theorem not_iterate_eq_iff (k : Nat) (b : Bool) : Nat.iterate not k b = b ↔ k % 2 = 0 := by
  induction k generalizing b with
  | zero => simp
  | succ j ih =>
    rw [Function.iterate_succ_apply']
    have hj := ih b
    cases hb : Nat.iterate not j b <;> cases b <;> simp_all <;> omega

/-- The table has no repeated entry: reads at two indices below 10 agree only when the
indices agree. -/
theorem SEGMENT_CODE_injective :
    ∀ a < 10, ∀ b < 10, SEGMENT_CODE[a]? = SEGMENT_CODE[b]? → a = b := by
  decide

/-- On a valid time the patterns driven by `display_time` are the six table reads. -/
theorem display_time_patterns_lookups (t : ClockTime) (hv : t.Valid) (p : Ports) :
    ∃ cs : List Nat, display_time_patterns t p = some cs ∧
      cs.map some = display_time_lookups t := by
  obtain ⟨c1, c2, c3, c4, c5, c6, e1, e2, e3, e4, e5, e6, htrace⟩ := display_time_trace t hv p
  refine ⟨[c1, c2, c3, c4, c5, c6], ?_, ?_⟩
  · simp [display_time_patterns, htrace]
  · simp [display_time_lookups, display_time_digits, e1, e2, e3, e4, e5, e6]

/-- Two valid times with the same six table reads are equal. -/
theorem display_time_lookups_injective (t1 t2 : ClockTime) (hv1 : t1.Valid) (hv2 : t2.Valid)
    (h : display_time_lookups t1 = display_time_lookups t2) : t1 = t2 := by
  obtain ⟨hh1, hm1, hs1⟩ := hv1
  obtain ⟨hh2, hm2, hs2⟩ := hv2
  simp only [display_time_lookups, display_time_digits, List.map_cons, List.map_nil,
    List.cons.injEq, and_true] at h
  obtain ⟨e1, e2, e3, e4, e5, e6⟩ := h
  have a1 := SEGMENT_CODE_injective _ (by omega) _ (by omega) e1
  have a2 := SEGMENT_CODE_injective _ (by omega) _ (by omega) e2
  have a3 := SEGMENT_CODE_injective _ (by omega) _ (by omega) e3
  have a4 := SEGMENT_CODE_injective _ (by omega) _ (by omega) e4
  have a5 := SEGMENT_CODE_injective _ (by omega) _ (by omega) e5
  have a6 := SEGMENT_CODE_injective _ (by omega) _ (by omega) e6
  cases t1 with
  | mk h1 m1 s1 =>
    cases t2 with
    | mk h2 m2 s2 =>
      simp only [ClockTime.mk.injEq] at *
      omega

/-- After one call the seconds are in range, whatever the three bytes held. -/
theorem update_time_second_lt (t : ClockTime) : (update_time t).second < 60 := by
  unfold update_time
  simp only []
  split_ifs <;> simp only [] <;> omega

/-- A call that carries out of the seconds leaves seconds and minutes in range, whatever
the minute byte held. -/
theorem update_time_carry_minute (t : ClockTime) (hs : t.second = 59) :
    (update_time t).second < 60 ∧ (update_time t).minute < 60 := by
  unfold update_time
  simp only [hs]
  split_ifs <;> simp only [] <;> omega

/-- While the seconds do not reach 60, `n` calls only add `n` to the seconds. -/
theorem update_time_iterate_seconds (n : Nat) (t : ClockTime) (h : t.second + n < 60) :
    Nat.iterate update_time n t = { t with second := t.second + n } := by
  induction n generalizing t with
  | zero => rfl
  | succ k ih =>
    have e : (t.second + 1) % 256 = t.second + 1 := Nat.mod_eq_of_lt (by omega)
    have hu : update_time t = { t with second := t.second + 1 } := by
      simp only [update_time, e]
      rw [if_neg (by omega)]
    rw [Function.iterate_succ_apply, hu, ih _ (by simp only []; omega)]
    simp only [ClockTime.mk.injEq, true_and]
    omega

/-- With seconds and minutes in range, and while the minutes do not reach 60, `n` calls
count seconds and minutes and leave the hour byte alone, in or out of range. -/
theorem update_time_iterate_minutes (n : Nat) (t : ClockTime) (hs : t.second < 60)
    (hm : t.minute < 60) (h : 60 * t.minute + t.second + n < 3600) :
    Nat.iterate update_time n t
      = { hour := t.hour
          minute := (60 * t.minute + t.second + n) / 60
          second := (60 * t.minute + t.second + n) % 60 } := by
  induction n generalizing t with
  | zero =>
    cases t with
    | mk a b c =>
      simp only [Function.iterate_zero, id_eq, ClockTime.mk.injEq, true_and] at *
      omega
  | succ k ih =>
    have es : (t.second + 1) % 256 = t.second + 1 := Nat.mod_eq_of_lt (by omega)
    have em : (t.minute + 1) % 256 = t.minute + 1 := Nat.mod_eq_of_lt (by omega)
    rw [Function.iterate_succ_apply]
    by_cases h59 : t.second = 59
    · have hu : update_time t = { hour := t.hour, minute := t.minute + 1, second := 0 } := by
        simp only [update_time, es, em]
        rw [if_pos (by omega), if_neg (by omega)]
      rw [hu, ih _ (by simp only []; omega) (by simp only []; omega) (by simp only []; omega)]
      simp only [ClockTime.mk.injEq, true_and]
      omega
    · have hu : update_time t
          = { hour := t.hour, minute := t.minute, second := t.second + 1 } := by
        simp only [update_time, es]
        rw [if_neg (by omega)]
      rw [hu, ih _ (by simp only []; omega) (by simp only []; omega) (by simp only []; omega)]
      simp only [ClockTime.mk.injEq, true_and]
      omega

/-- From `(h,59,59)` one call gives a valid time, whatever the hour byte held. -/
theorem update_time_carry_hour (t : ClockTime) (hs : t.second = 59) (hm : t.minute = 59) :
    (update_time t).Valid := by
  unfold update_time
  simp only [hs, hm, ClockTime.Valid]
  split_ifs <;> simp only [] <;> omega

/-- Once valid, always valid. -/
theorem update_time_valid_of_le (n0 n : Nat) (t : ClockTime) (hle : n0 ≤ n)
    (h : (Nat.iterate update_time n0 t).Valid) : (Nat.iterate update_time n t).Valid := by
  have e : n = (n - n0) + n0 := by omega
  rw [e, Function.iterate_add_apply]
  exact update_time_iterate_valid _ _ h

/-- With seconds and minutes in range, 3600 calls or more give a valid time. -/
theorem update_time_recover_hour (n : Nat) (t : ClockTime) (hs : t.second < 60)
    (hm : t.minute < 60) (hn : 3600 ≤ n) : (Nat.iterate update_time n t).Valid := by
  have hpre := update_time_iterate_minutes (3599 - (60 * t.minute + t.second)) t hs hm (by omega)
  have hv : (Nat.iterate update_time (3599 - (60 * t.minute + t.second) + 1) t).Valid := by
    rw [Function.iterate_succ_apply', hpre]
    apply update_time_carry_hour <;> simp only [] <;> omega
  exact update_time_valid_of_le _ n t (by omega) hv

/-- With the seconds in range, 3660 calls or more give a valid time. -/
theorem update_time_recover_minute (n : Nat) (t : ClockTime) (hs : t.second < 60)
    (hn : 3660 ≤ n) : (Nat.iterate update_time n t).Valid := by
  have hpre := update_time_iterate_seconds (59 - t.second) t (by omega)
  have hsemi : (Nat.iterate update_time (59 - t.second + 1) t).second < 60 ∧
      (Nat.iterate update_time (59 - t.second + 1) t).minute < 60 := by
    rw [Function.iterate_succ_apply', hpre]
    apply update_time_carry_minute
    simp only []
    omega
  have e : n = (n - (59 - t.second + 1)) + (59 - t.second + 1) := by omega
  rw [e, Function.iterate_add_apply]
  exact update_time_recover_hour _ _ hsemi.1 hsemi.2 (by omega)

/-- From any three bytes, 3661 calls or more give a valid time. -/
theorem update_time_recover (n : Nat) (t : ClockTime) (hn : 3661 ≤ n) :
    (Nat.iterate update_time n t).Valid := by
  have e : n = (n - 1) + 1 := by omega
  rw [e, Function.iterate_succ_apply]
  exact update_time_recover_minute _ _ (update_time_second_lt t) (by omega)

/-! ## Claims -/

/-- C1. For a valid time `(h,m,s)`, one call of `update_time` gives `(h,m,s+1)` when
`s+1 < 60` (minute and hour unchanged), `(h,m+1,0)` when `s = 59` and `m+1 < 60`,
`(h+1,0,0)` when `s = 59`, `m = 59` and `h+1 < 24`, and `(0,0,0)` from `(23,59,59)`. -/
theorem update_time_cases (h m s : Nat) (hh : h < 24) (hm : m < 60) (hs : s < 60) :
    (s + 1 < 60 →
      update_time { hour := h, minute := m, second := s }
        = { hour := h, minute := m, second := s + 1 }) ∧
    (s = 59 → m + 1 < 60 →
      update_time { hour := h, minute := m, second := s }
        = { hour := h, minute := m + 1, second := 0 }) ∧
    (s = 59 → m = 59 → h + 1 < 24 →
      update_time { hour := h, minute := m, second := s }
        = { hour := h + 1, minute := 0, second := 0 }) ∧
    update_time { hour := 23, minute := 59, second := 59 }
      = { hour := 0, minute := 0, second := 0 } := by
  refine ⟨?_, ?_, ?_, ?_⟩
  · intro h1
    have e : (s + 1) % 256 = s + 1 := Nat.mod_eq_of_lt (by omega)
    simp only [update_time, e]
    rw [if_neg (by omega)]
  · intro h1 h2
    subst h1
    have e : (m + 1) % 256 = m + 1 := Nat.mod_eq_of_lt (by omega)
    simp only [update_time, e]
    rw [if_pos (by decide), if_neg (by omega)]
  · intro h1 h2 h3
    subst h1; subst h2
    have e : (h + 1) % 256 = h + 1 := Nat.mod_eq_of_lt (by omega)
    simp only [update_time, e]
    rw [if_pos (by decide), if_pos (by decide), if_neg (by omega)]
  · decide

/-- Witness of C1 at `(12,30,45)`, `(12,30,59)`, `(12,59,59)`. -/
theorem update_time_cases_witness :
    update_time { hour := 12, minute := 30, second := 45 }
        = { hour := 12, minute := 30, second := 46 } ∧
    update_time { hour := 12, minute := 30, second := 59 }
        = { hour := 12, minute := 31, second := 0 } ∧
    update_time { hour := 12, minute := 59, second := 59 }
        = { hour := 13, minute := 0, second := 0 } :=
  ⟨(update_time_cases 12 30 45 (by decide) (by decide) (by decide)).1 (by decide),
   (update_time_cases 12 30 59 (by decide) (by decide) (by decide)).2.1 rfl (by decide),
   (update_time_cases 12 59 59 (by decide) (by decide) (by decide)).2.2.1 rfl rfl (by decide)⟩

/-- C2. For a valid time `(h,m,s)` and every `n`, applying `update_time` `n` times gives
`(T / 3600, (T / 60) % 60, T % 60)` with `T = (3600*h + 60*m + s + n) % 86400`; in
particular 3661 advances from `(0,0,0)` give `(1,1,1)`, and 86400 advances give back
the time they started from. -/
theorem update_time_n_times (h m s : Nat) (hh : h < 24) (hm : m < 60) (hs : s < 60) :
    (∀ n : Nat,
      Nat.iterate update_time n { hour := h, minute := m, second := s }
        = { hour := (3600 * h + 60 * m + s + n) % 86400 / 3600
            minute := ((3600 * h + 60 * m + s + n) % 86400 / 60) % 60
            second := (3600 * h + 60 * m + s + n) % 86400 % 60 }) ∧
    Nat.iterate update_time 3661 { hour := 0, minute := 0, second := 0 }
      = { hour := 1, minute := 1, second := 1 } ∧
    Nat.iterate update_time 86400 { hour := h, minute := m, second := s }
      = { hour := h, minute := m, second := s } := by
  have hv : ClockTime.Valid { hour := h, minute := m, second := s } := ⟨hh, hm, hs⟩
  refine ⟨?_, ?_, ?_⟩
  · intro n
    exact update_time_iterate_eq n _ hv
  · rw [update_time_iterate_eq 3661 _ (by decide)]
    simp [ClockTime.ofSeconds, ClockTime.toSeconds]
  · rw [update_time_iterate_eq 86400 _ hv]
    simp only [ClockTime.ofSeconds, ClockTime.toSeconds, ClockTime.mk.injEq]
    omega

/-- Witness of C2 at `(23,59,58)`: three advances give `(0,0,1)`. -/
theorem update_time_n_times_witness :
    Nat.iterate update_time 3 { hour := 23, minute := 59, second := 58 }
      = { hour := 0, minute := 0, second := 1 } :=
  (update_time_n_times 23 59 58 (by decide) (by decide) (by decide)).1 3

/-- C3. Range invariant of the whole system: every initial state satisfies `hour < 24`,
`minute < 60`, `second < 60` and `count < 20`; one `timer0_ISR` call preserves it, and
so does one pass of the main loop's input handling under any levels of the two input
pins; hence every reachable state is in range. -/
theorem range_invariant :
    (∀ regs : Timer0, (initial regs).Inv) ∧
    (∀ st : State, st.Inv → (timer0_ISR st).Inv) ∧
    (∀ (MODE_SWITCH START_BTN : Bool) (st : State),
      st.Inv → (main_loop_inputs MODE_SWITCH START_BTN st).Inv) ∧
    (∀ st : State, Reachable st →
      st.time.hour < 24 ∧ st.time.minute < 60 ∧ st.time.second < 60 ∧ st.count < 20) := by
  have h0 : ∀ regs : Timer0, (initial regs).Inv := by
    intro regs
    refine ⟨⟨?_, ?_, ?_⟩, ?_⟩ <;> simp only [initial] <;> omega
  refine ⟨h0, timer0_ISR_inv, main_loop_inputs_inv, ?_⟩
  intro st hr
  have hi : st.Inv := by
    induction hr with
    | init regs => exact h0 regs
    | tick _ ih => exact timer0_ISR_inv _ ih
    | pass ms sb _ ih => exact main_loop_inputs_inv ms sb _ ih
  exact ⟨hi.1.1, hi.1.2.1, hi.1.2.2, hi.2⟩

/-- Witness of C3: the state reached from the loop entry by a mode-switch pass and an
interrupt is reachable, hence in range. -/
theorem range_invariant_witness :
    (timer0_ISR (main_loop_inputs LOW HIGH loop_entry)).time.hour < 24 ∧
    (timer0_ISR (main_loop_inputs LOW HIGH loop_entry)).time.minute < 60 ∧
    (timer0_ISR (main_loop_inputs LOW HIGH loop_entry)).time.second < 60 ∧
    (timer0_ISR (main_loop_inputs LOW HIGH loop_entry)).count < 20 :=
  range_invariant.2.2.2 _
    (Reachable.tick (Reachable.pass LOW HIGH
      (Reachable.init { TMOD := 0x01, TH0 := 0x3C, TL0 := 0xB0,
                        ET0 := true, EA := true, TR0 := true })))

/-- C4. In clock mode, for every time `t`, every run flag and every tick counter
`c < 20`, 20 consecutive `timer0_ISR` calls leave the time equal to `update_time`
applied once to `t` and the tick counter equal to `c`; the resulting time is the same
for both values of the run flag.  (The time need not even be valid.) -/
theorem clock_mode_twenty_ticks (st : State) (hm : st.mode = CLOCK) (hc : st.count < 20) :
    (Nat.iterate timer0_ISR 20 st).time = update_time st.time ∧
    (Nat.iterate timer0_ISR 20 st).count = st.count ∧
    (Nat.iterate timer0_ISR 20 { st with running := true }).time
      = (Nat.iterate timer0_ISR 20 { st with running := false }).time := by
  have key : ∀ s : State, s.mode = false → s.count < 20 →
      (Nat.iterate timer0_ISR 20 s).time = update_time s.time ∧
      (Nat.iterate timer0_ISR 20 s).count = s.count := by
    intro s hs hcs
    obtain ⟨-, -, ic, it⟩ := timer0_ISR_iterate_fields 20 s hcs
    have hq : (s.count + 20) / 20 = 1 := by omega
    have hr : (s.count + 20) % 20 = s.count := by omega
    rw [ic, it, hq, hr, if_pos (Or.inl hs)]
    exact ⟨rfl, rfl⟩
  refine ⟨(key st hm hc).1, (key st hm hc).2, ?_⟩
  rw [(key { st with running := true } hm hc).1, (key { st with running := false } hm hc).1]

/-- Witness of C4: clock mode at `(23,59,59)` with 7 ticks counted and the run flag clear. -/
theorem clock_mode_twenty_ticks_witness :
    (Nat.iterate timer0_ISR 20
        { loop_entry with time := { hour := 23, minute := 59, second := 59 }, count := 7 }).time
      = update_time { hour := 23, minute := 59, second := 59 } ∧
    (Nat.iterate timer0_ISR 20
        { loop_entry with time := { hour := 23, minute := 59, second := 59 }, count := 7 }).count
      = 7 :=
  ⟨(clock_mode_twenty_ticks
      { loop_entry with time := { hour := 23, minute := 59, second := 59 }, count := 7 }
      rfl (by decide)).1,
   (clock_mode_twenty_ticks
      { loop_entry with time := { hour := 23, minute := 59, second := 59 }, count := 7 }
      rfl (by decide)).2.1⟩

/-- C5. In stopwatch mode the time advances exactly when the run flag is set: with the
flag set and a tick counter `c < 20`, 20 consecutive `timer0_ISR` calls apply
`update_time` once (and give the counter back); with the flag clear, any number `n` of
consecutive calls leaves hour, minute and second unchanged, and 100 calls from
`(0,0,0)` leave `(0,0,0)`. -/
theorem stopwatch_mode_ticks (st : State) (hm : st.mode = STOPWATCH) :
    (st.running = true → st.count < 20 →
      (Nat.iterate timer0_ISR 20 st).time = update_time st.time ∧
      (Nat.iterate timer0_ISR 20 st).count = st.count) ∧
    (st.running = false → ∀ n : Nat,
      (Nat.iterate timer0_ISR n st).time.hour = st.time.hour ∧
      (Nat.iterate timer0_ISR n st).time.minute = st.time.minute ∧
      (Nat.iterate timer0_ISR n st).time.second = st.time.second) ∧
    (st.running = false → st.time = { hour := 0, minute := 0, second := 0 } →
      (Nat.iterate timer0_ISR 100 st).time = { hour := 0, minute := 0, second := 0 }) := by
  refine ⟨?_, ?_, ?_⟩
  · intro hr hc
    obtain ⟨-, -, ic, it⟩ := timer0_ISR_iterate_fields 20 st hc
    have hq : (st.count + 20) / 20 = 1 := by omega
    have hq2 : (st.count + 20) % 20 = st.count := by omega
    rw [ic, it, hq, hq2, if_pos (Or.inr hr)]
    exact ⟨rfl, rfl⟩
  · intro hr n
    rw [(timer0_ISR_iterate_stopped n st hm hr).1]
    exact ⟨rfl, rfl, rfl⟩
  · intro hr h0
    rw [(timer0_ISR_iterate_stopped 100 st hm hr).1, h0]

/-- Witness of C5: a running stopwatch at `(0,0,59)` with 3 ticks counted, and a stopped
one at `(0,0,0)` over 100 ticks. -/
theorem stopwatch_mode_ticks_witness :
    (Nat.iterate timer0_ISR 20
        { loop_entry with mode := STOPWATCH, running := true, count := 3,
                          time := { hour := 0, minute := 0, second := 59 } }).time
      = update_time { hour := 0, minute := 0, second := 59 } ∧
    (Nat.iterate timer0_ISR 100 { loop_entry with mode := STOPWATCH }).time
      = { hour := 0, minute := 0, second := 0 } :=
  ⟨((stopwatch_mode_ticks
      { loop_entry with mode := STOPWATCH, running := true, count := 3,
                        time := { hour := 0, minute := 0, second := 59 } } rfl).1
      rfl (by decide)).1,
   (stopwatch_mode_ticks { loop_entry with mode := STOPWATCH } rfl).2.2 rfl rfl⟩

/-- C6. Exact effect of one `timer0_ISR` call on a state with `count < 20`: if
`count + 1 < 20` the counter becomes `count + 1` and nothing else changes (but for the
reload of `TH0:TL0`); if `count + 1 = 20` the counter becomes 0 and the time becomes
`update_time` of the time when the mode is clock, or stopwatch with the run flag set,
and is unchanged otherwise.  Mode and run flag never change. -/
theorem timer0_ISR_effect (st : State) (hc : st.count < 20) :
    (st.count + 1 < 20 →
      timer0_ISR st
        = { st with count := st.count + 1,
                    sfr := { st.sfr with TH0 := 0x3C, TL0 := 0xB0 } }) ∧
    (st.count + 1 = 20 →
      (timer0_ISR st).count = 0 ∧
      (timer0_ISR st).time =
        (if st.mode = CLOCK ∨ (st.mode = STOPWATCH ∧ st.running = true)
          then update_time st.time else st.time)) ∧
    (timer0_ISR st).mode = st.mode ∧ (timer0_ISR st).running = st.running := by
  obtain ⟨sm, sr, sc, st', ss⟩ := timer0_ISR_fields st hc
  refine ⟨?_, ?_, sm, sr⟩
  · intro h
    have e : (st.count + 1) % 65536 = st.count + 1 := Nat.mod_eq_of_lt (by omega)
    unfold timer0_ISR
    simp only [e]
    rw [if_neg (by omega)]
  · intro h
    have h19 : st.count = 19 := by omega
    refine ⟨by rw [sc]; omega, ?_⟩
    rw [st']
    cases hm : st.mode <;> cases hr : st.running <;> simp [h19]

/-- Witness of C6: the first tick after the loop entry, and the 20th tick in clock mode. -/
theorem timer0_ISR_effect_witness :
    timer0_ISR loop_entry = { loop_entry with count := 1 } ∧
    (timer0_ISR { loop_entry with count := 19 }).count = 0 ∧
    (timer0_ISR { loop_entry with count := 19 }).time
      = { hour := 0, minute := 0, second := 1 } :=
  ⟨(timer0_ISR_effect loop_entry (by decide)).1 (by decide),
   ((timer0_ISR_effect { loop_entry with count := 19 } (by decide)).2.1 rfl).1,
   ((timer0_ISR_effect { loop_entry with count := 19 } (by decide)).2.1 rfl).2⟩

/-- C7. For every state, both directions of toggle and either level of the button, a
main-loop pass that reads the mode switch LOW flips the mode and sets the time to
`(0,0,0)`; a pass that reads it HIGH leaves mode and time unchanged.  From clock mode at
`(12,30,45)` one toggle gives stopwatch mode at `(0,0,0)` and a second toggle gives clock
mode at `(0,0,0)`. -/
theorem mode_switch_effect (st : State) (START_BTN START_BTN2 : Bool) :
    (main_loop_inputs LOW START_BTN st).mode = (!st.mode) ∧
    (main_loop_inputs LOW START_BTN st).time = { hour := 0, minute := 0, second := 0 } ∧
    (main_loop_inputs HIGH START_BTN st).mode = st.mode ∧
    (main_loop_inputs HIGH START_BTN st).time = st.time ∧
    (main_loop_inputs LOW START_BTN
        { st with mode := CLOCK, time := { hour := 12, minute := 30, second := 45 } }).mode
      = STOPWATCH ∧
    (main_loop_inputs LOW START_BTN
        { st with mode := CLOCK, time := { hour := 12, minute := 30, second := 45 } }).time
      = { hour := 0, minute := 0, second := 0 } ∧
    (main_loop_inputs LOW START_BTN2 (main_loop_inputs LOW START_BTN
        { st with mode := CLOCK, time := { hour := 12, minute := 30, second := 45 } })).mode
      = CLOCK ∧
    (main_loop_inputs LOW START_BTN2 (main_loop_inputs LOW START_BTN
        { st with mode := CLOCK, time := { hour := 12, minute := 30, second := 45 } })).time
      = { hour := 0, minute := 0, second := 0 } := by
  unfold main_loop_inputs handle_start_btn handle_mode_switch delay_ms
  cases START_BTN <;> cases START_BTN2 <;> cases hm : st.mode <;> simp [hm]

/-- C8. For a main-loop pass that starts in stopwatch mode and reads the mode switch HIGH:
if the button reads LOW the run flag is negated and nothing else changes (mode, time,
tick counter, timer registers); if the button reads HIGH the state is unchanged. -/
theorem start_btn_effect (st : State) (hm : st.mode = STOPWATCH) :
    main_loop_inputs HIGH LOW st = { st with running := !st.running } ∧
    (main_loop_inputs HIGH LOW st).mode = st.mode ∧
    (main_loop_inputs HIGH LOW st).time = st.time ∧
    (main_loop_inputs HIGH LOW st).count = st.count ∧
    main_loop_inputs HIGH HIGH st = st := by
  unfold main_loop_inputs handle_start_btn handle_mode_switch delay_ms
  simp [hm]

/-- Witness of C8: a stopped stopwatch at the loop entry is started by the button. -/
theorem start_btn_effect_witness :
    main_loop_inputs HIGH LOW { loop_entry with mode := STOPWATCH }
      = { loop_entry with mode := STOPWATCH, running := true } ∧
    main_loop_inputs HIGH HIGH { loop_entry with mode := STOPWATCH }
      = { loop_entry with mode := STOPWATCH } :=
  ⟨(start_btn_effect { loop_entry with mode := STOPWATCH } rfl).1,
   (start_btn_effect { loop_entry with mode := STOPWATCH } rfl).2.2.2.2⟩

/-- C9, counterexample.  A pass that starts in clock mode (the loop entry) and reads the
mode switch LOW ends in different states for the two levels of the button: the mode is
stopwatch by the time the button is tested, so a LOW button sets the run flag. -/
theorem start_btn_clock_counterexample :
    loop_entry.mode = CLOCK ∧
    main_loop_inputs LOW LOW loop_entry ≠ main_loop_inputs LOW HIGH loop_entry ∧
    (main_loop_inputs LOW LOW loop_entry).running ≠ loop_entry.running := by
  decide

/-- C9, amended.  The button has no effect when the mode is clock at the moment the button
is tested: a pass that starts in clock mode and reads the mode switch HIGH ends in the
same state for both levels of the button, and that state is the starting state, so the
run flag is unchanged.  When such a pass reads the mode switch LOW, the mode is stopwatch
when the button is tested: a LOW button negates the run flag and a HIGH one keeps it. -/
theorem start_btn_clock_mode (st : State) (hm : st.mode = CLOCK) :
    main_loop_inputs HIGH LOW st = main_loop_inputs HIGH HIGH st ∧
    (∀ START_BTN : Bool, main_loop_inputs HIGH START_BTN st = st) ∧
    (main_loop_inputs LOW LOW st).running = (!st.running) ∧
    (main_loop_inputs LOW HIGH st).running = st.running := by
  unfold main_loop_inputs handle_start_btn handle_mode_switch delay_ms
  simp [hm]

/-- Witness of C9 (amended) at the loop entry. -/
theorem start_btn_clock_mode_witness :
    main_loop_inputs HIGH LOW loop_entry = main_loop_inputs HIGH HIGH loop_entry ∧
    (main_loop_inputs LOW LOW loop_entry).running = true :=
  ⟨(start_btn_clock_mode loop_entry rfl).1, (start_btn_clock_mode loop_entry rfl).2.2.1⟩

/-- C10. For a valid time the digit buffer of `display_time` is
`(h/10, h%10, m/10, m%10, s/10, s%10)` in this order, each of the six digits is below 10,
and each of the six reads of `SEGMENT_CODE` is inside the 10-entry table: the i-th read
returns the table entry at the i-th digit, never `none`. -/
theorem display_time_digits_in_range (t : ClockTime) (hv : t.Valid) :
    display_time_digits t
      = [t.hour / 10, t.hour % 10, t.minute / 10, t.minute % 10,
         t.second / 10, t.second % 10] ∧
    (display_time_digits t).length = 6 ∧
    (∀ d ∈ display_time_digits t, d < 10) ∧
    SEGMENT_CODE.length = 10 ∧
    (∀ d ∈ display_time_digits t, d < SEGMENT_CODE.length) ∧
    (display_time_lookups t).length = 6 ∧
    (∀ o ∈ display_time_lookups t, o ≠ none) := by
  obtain ⟨hh, hm, hs⟩ := hv
  have hd : ∀ d ∈ display_time_digits t, d < 10 := by
    intro d hd
    simp only [display_time_digits, List.mem_cons, List.mem_singleton,
      List.not_mem_nil, or_false] at hd
    omega
  have hl : SEGMENT_CODE.length = 10 := rfl
  refine ⟨rfl, rfl, hd, hl, ?_, rfl, ?_⟩
  · intro d h
    rw [hl]
    exact hd d h
  · intro o ho
    simp only [display_time_lookups, List.mem_map] at ho
    obtain ⟨d, hmem, rfl⟩ := ho
    have hlt : d < SEGMENT_CODE.length := by rw [hl]; exact hd d hmem
    rw [List.getElem?_eq_getElem hlt]
    exact Option.some_ne_none _

/-- Witness of C10 at `(23,59,48)`: digits 2,3,5,9,4,8 and their segment codes. -/
theorem display_time_digits_in_range_witness :
    display_time_digits { hour := 23, minute := 59, second := 48 } = [2, 3, 5, 9, 4, 8] ∧
    (∀ o ∈ display_time_lookups { hour := 23, minute := 59, second := 48 }, o ≠ none) :=
  ⟨(display_time_digits_in_range { hour := 23, minute := 59, second := 48 } (by decide)).1,
   (display_time_digits_in_range { hour := 23, minute := 59, second := 48 }
      (by decide)).2.2.2.2.2.2⟩

/-- C11. The table holds C0, F9, A4, B0, 99, 92, 82, F8, 80, 90 (hex) for the digits
0..9, and each entry is the active-low encoding of the standard glyph of its digit: for
every digit `d < 10` the cleared bits among bit 0..bit 6 of `SEGMENT_CODE[d]` are exactly
the lit segments of the glyph of `d`, and bit 7 is set. -/
theorem segment_code_encodes_glyphs :
    SEGMENT_CODE = [0xC0, 0xF9, 0xA4, 0xB0, 0x99, 0x92, 0x82, 0xF8, 0x80, 0x90] ∧
    (∀ d < 10, (SEGMENT_CODE[d]?).map lit_segments = some (standard_glyph d)) ∧
    (∀ d < 10, ∀ i < 7,
      (SEGMENT_CODE[d]?).map (fun c => c.testBit i) = some (!decide (i ∈ standard_glyph d))) ∧
    (∀ d < 10, (SEGMENT_CODE[d]?).map (fun c => c.testBit 7) = some true) := by
  refine ⟨rfl, ?_, ?_, ?_⟩ <;> decide

/-- Witness of C11 at the digit 4: pattern `0x99` lights `b`, `c`, `f`, `g`. -/
theorem segment_code_encodes_glyphs_witness :
    (SEGMENT_CODE[4]?).map lit_segments = some [1, 2, 5, 6] :=
  segment_code_encodes_glyphs.2.1 4 (by decide)

/-- C12. On every valid time `update_time` (nested carries tested with `>=`) gives the
same result as the advance arithmetic of the specification (three independent checks
with `==`, in the order seconds, minutes, hours). -/
theorem update_time_refines_spec (t : ClockTime) (hv : t.Valid) :
    update_time t = advance_spec t := by
  obtain ⟨hh, hm, hs⟩ := hv
  cases t with
  | mk h m s =>
    simp only at hh hm hs
    simp only [update_time, advance_spec]
    have es : (s + 1) % 256 = s + 1 := Nat.mod_eq_of_lt (by omega)
    have em : (m + 1) % 256 = m + 1 := Nat.mod_eq_of_lt (by omega)
    have eh : (h + 1) % 256 = h + 1 := Nat.mod_eq_of_lt (by omega)
    rw [es, em, eh]
    by_cases h1 : s + 1 = 60
    · by_cases h2 : m + 1 = 60
      · by_cases h3 : h + 1 = 24
        · simp [h1, h2, h3]
        · have : ¬ h + 1 ≥ 24 := by omega
          simp [h1, h2, h3, this]
      · have : ¬ m + 1 ≥ 60 := by omega
        have hm60 : ¬ m = 60 := by omega
        have hh24 : ¬ h = 24 := by omega
        simp [h1, h2, this, hh24]
    · have : ¬ s + 1 ≥ 60 := by omega
      have hm60 : ¬ m = 60 := by omega
      have hh24 : ¬ h = 24 := by omega
      simp [h1, this, hm60, hh24]

/-- Witness of C12 at `(23,59,59)`, where all three carries fire. -/
theorem update_time_refines_spec_witness :
    update_time { hour := 23, minute := 59, second := 59 }
      = advance_spec { hour := 23, minute := 59, second := 59 } :=
  update_time_refines_spec { hour := 23, minute := 59, second := 59 } (by decide)

/-- C13, as the code computes it.  Both `init_timer` and `timer0_ISR` load the reload value
`TH0:TL0 = 0x3CB0`, which leaves 50000 timer counts to the overflow, that is 600000
oscillator cycles per tick and 12000000 oscillator cycles per 20 ticks.  At the
11.0592 MHz named on line 99 one second is 11059200 cycles, so a tick lasts 54253
microseconds (rounded down) instead of 50000, and the 20 ticks last 1085 ms (rounded
down) instead of 1000: `20 * 50000 * 12 / 11059200` is `625 / 576`, not 1.  The reload
value `0x4C00` would make 20 ticks last exactly 11059200 cycles. -/
theorem time_base_arithmetic :
    (∀ st : State, (init_timer st).sfr.reload = 0x3CB0) ∧
    (∀ st : State, (timer0_ISR st).sfr.reload = 0x3CB0) ∧
    (∀ st : State, (timer0_ISR st).sfr.counts_to_overflow = 50000) ∧
    (∀ st : State, (timer0_ISR st).sfr.period_cycles = 600000) ∧
    (∀ st : State, (timer0_ISR st).sfr.second_cycles = 20 * 50000 * 12) ∧
    (∀ st : State, (timer0_ISR st).sfr.second_cycles ≠ OSC_HZ) ∧
    (∀ st : State, (timer0_ISR st).sfr.period_cycles * 1000000 / OSC_HZ = 54253) ∧
    (∀ st : State, (timer0_ISR st).sfr.second_cycles * 1000 / OSC_HZ = 1085) ∧
    (∀ st : State, ((timer0_ISR st).sfr.second_cycles : ℚ) / (OSC_HZ : ℚ) = 625 / 576) ∧
    (∀ r : Timer0, ({ r with TH0 := 0x4C, TL0 := 0x00 } : Timer0).second_cycles = OSC_HZ) := by
  have hi : ∀ st : State, (init_timer st).sfr.reload = 0x3CB0 := by
    intro st
    simp [init_timer, Timer0.reload]
  have hr : ∀ st : State, (timer0_ISR st).sfr.reload = 0x3CB0 := by
    intro st
    rw [timer0_ISR_sfr]
    simp [Timer0.reload]
  have hc : ∀ st : State, (timer0_ISR st).sfr.counts_to_overflow = 50000 := by
    intro st
    simp [Timer0.counts_to_overflow, hr st]
  have hp : ∀ st : State, (timer0_ISR st).sfr.period_cycles = 600000 := by
    intro st
    simp [Timer0.period_cycles, hc st, OSC_PER_COUNT]
  have hs : ∀ st : State, (timer0_ISR st).sfr.second_cycles = 12000000 := by
    intro st
    simp [Timer0.second_cycles, hp st, TICKS_PER_SECOND]
  refine ⟨hi, hr, hc, hp, ?_, ?_, ?_, ?_, ?_, ?_⟩
  · intro st; rw [hs st]
  · intro st; rw [hs st]; decide
  · intro st; rw [hp st]; decide
  · intro st; rw [hs st]; decide
  · intro st; rw [hs st]; norm_num [OSC_HZ]
  · intro r
    simp [Timer0.second_cycles, Timer0.period_cycles, Timer0.counts_to_overflow,
      Timer0.reload, TICKS_PER_SECOND, OSC_PER_COUNT, OSC_HZ]

/-- C14. For a valid time `(h,m,s)` and an entry state with all six digit-select lines
HIGH, `display_time` returns, and at its i-th dwell exactly line i is LOW while the
segment bus holds the table entry of the i-th digit, the digits being, in this order,
hours tens `h / 10`, hours ones `h % 10`, minutes tens `m / 10`, minutes ones `m % 10`,
seconds tens `s / 10` and seconds ones `s % 10`; every one of these six reads is inside
the table; at no dwell are two lines LOW, and on return all six lines are HIGH again. -/
theorem display_time_one_digit_at_a_time (t : ClockTime) (hv : t.Valid) (p : Ports)
    (hp : p.lines = [HIGH, HIGH, HIGH, HIGH, HIGH, HIGH]) :
    ∃ (ws : List Ports) (q : Ports),
      display_time t p = some (ws, q) ∧
      ws.map Ports.lines =
        [ [LOW, HIGH, HIGH, HIGH, HIGH, HIGH],
          [HIGH, LOW, HIGH, HIGH, HIGH, HIGH],
          [HIGH, HIGH, LOW, HIGH, HIGH, HIGH],
          [HIGH, HIGH, HIGH, LOW, HIGH, HIGH],
          [HIGH, HIGH, HIGH, HIGH, LOW, HIGH],
          [HIGH, HIGH, HIGH, HIGH, HIGH, LOW] ] ∧
      ws.map (fun w => some w.SEGMENT_PORT) =
        [ SEGMENT_CODE[t.hour / 10]?, SEGMENT_CODE[t.hour % 10]?,
          SEGMENT_CODE[t.minute / 10]?, SEGMENT_CODE[t.minute % 10]?,
          SEGMENT_CODE[t.second / 10]?, SEGMENT_CODE[t.second % 10]? ] ∧
      ws.map (fun w => some w.SEGMENT_PORT) = display_time_lookups t ∧
      (∀ w ∈ ws, w.lines.count LOW = 1) ∧
      q.lines = [HIGH, HIGH, HIGH, HIGH, HIGH, HIGH] ∧
      q.SEGMENT_PORT ∈ SEGMENT_CODE[t.second % 10]? := by
  obtain ⟨c1, c2, c3, c4, c5, c6, e1, e2, e3, e4, e5, e6, htrace⟩ := display_time_trace t hv p
  simp only [Ports.lines, List.cons.injEq, and_true] at hp
  obtain ⟨h1, h2, h3, h4, h5, h6⟩ := hp
  refine ⟨_, _, htrace, ?_, ?_, ?_, ?_, ?_, ?_⟩
  · simp [Ports.lines, h2, h3, h4, h5, h6]
  · simp [e1, e2, e3, e4, e5, e6]
  · simp [display_time_lookups, display_time_digits, e1, e2, e3, e4, e5, e6]
  · intro w hw
    simp only [List.mem_cons, List.mem_singleton, List.not_mem_nil, or_false] at hw
    rcases hw with rfl | rfl | rfl | rfl | rfl | rfl <;>
      simp [Ports.lines, h2, h3, h4, h5, h6]
  · rfl
  · simp [e6]

/-- Witness of C14: the time `(12,34,56)` shown from idle pins with `0xFF` on the bus; the
six dwells drive the patterns of 1, 2, 3, 4, 5, 6, that is `F9, A4, B0, 99, 92, 82`. -/
theorem display_time_one_digit_at_a_time_witness :
    ∃ (ws : List Ports) (q : Ports),
      display_time { hour := 12, minute := 34, second := 56 }
        { DIGIT1 := true, DIGIT2 := true, DIGIT3 := true, DIGIT4 := true, DIGIT5 := true,
          DIGIT6 := true, SEGMENT_PORT := 0xFF } = some (ws, q) ∧
      ws.map Ports.lines =
        [ [LOW, HIGH, HIGH, HIGH, HIGH, HIGH],
          [HIGH, LOW, HIGH, HIGH, HIGH, HIGH],
          [HIGH, HIGH, LOW, HIGH, HIGH, HIGH],
          [HIGH, HIGH, HIGH, LOW, HIGH, HIGH],
          [HIGH, HIGH, HIGH, HIGH, LOW, HIGH],
          [HIGH, HIGH, HIGH, HIGH, HIGH, LOW] ] ∧
      ws.map (fun w => some w.SEGMENT_PORT) =
        [some 0xF9, some 0xA4, some 0xB0, some 0x99, some 0x92, some 0x82] ∧
      ws.map (fun w => some w.SEGMENT_PORT)
        = display_time_lookups { hour := 12, minute := 34, second := 56 } ∧
      (∀ w ∈ ws, w.lines.count LOW = 1) ∧
      q.lines = [HIGH, HIGH, HIGH, HIGH, HIGH, HIGH] ∧
      q.SEGMENT_PORT ∈ some 0x82 :=
  display_time_one_digit_at_a_time { hour := 12, minute := 34, second := 56 } (by decide)
    { DIGIT1 := true, DIGIT2 := true, DIGIT3 := true, DIGIT4 := true, DIGIT5 := true,
      DIGIT6 := true, SEGMENT_PORT := 0xFF } rfl

/-- C15. A held input retriggers on every pass.  After `k` consecutive passes that all read
the mode switch LOW and the button HIGH the mode has been negated `k` times, so it equals
its original value exactly when `k` is even; two such passes restore the mode and leave
the time at `(0,0,0)`.  Likewise, after `k` consecutive passes in stopwatch mode that all
read the mode switch HIGH and the button LOW the run flag has been negated `k` times and
equals its original value exactly when `k` is even. -/
theorem held_input_retriggers (k : Nat) (st : State) :
    (Nat.iterate (main_loop_inputs LOW HIGH) k st).mode = Nat.iterate not k st.mode ∧
    ((Nat.iterate (main_loop_inputs LOW HIGH) k st).mode = st.mode ↔ k % 2 = 0) ∧
    (main_loop_inputs LOW HIGH (main_loop_inputs LOW HIGH st)).mode = st.mode ∧
    (main_loop_inputs LOW HIGH (main_loop_inputs LOW HIGH st)).time
      = { hour := 0, minute := 0, second := 0 } ∧
    (st.mode = STOPWATCH →
      (Nat.iterate (main_loop_inputs HIGH LOW) k st).running = Nat.iterate not k st.running ∧
      ((Nat.iterate (main_loop_inputs HIGH LOW) k st).running = st.running ↔ k % 2 = 0)) := by
  refine ⟨main_loop_inputs_switch_iterate k st, ?_, ?_, ?_, ?_⟩
  · rw [main_loop_inputs_switch_iterate k st]
    exact not_iterate_eq_iff k st.mode
  · rw [main_loop_inputs_switch, main_loop_inputs_switch]
    simp
  · rw [main_loop_inputs_switch]
  · intro hm
    obtain ⟨-, hr⟩ := main_loop_inputs_button_iterate k st hm
    refine ⟨hr, ?_⟩
    rw [hr]
    exact not_iterate_eq_iff k st.running

/-- Witness of C15: three held passes from the loop entry end in stopwatch mode, and three
held button passes start a stopped stopwatch. -/
theorem held_input_retriggers_witness :
    (Nat.iterate (main_loop_inputs LOW HIGH) 3 loop_entry).mode = STOPWATCH ∧
    (Nat.iterate (main_loop_inputs HIGH LOW) 3 { loop_entry with mode := STOPWATCH }).running
      = true :=
  ⟨(held_input_retriggers 3 loop_entry).1,
   ((held_input_retriggers 3 { loop_entry with mode := STOPWATCH }).2.2.2.2 rfl).1⟩

/-- C16. Elapsed time.  From a state with time `(0,0,0)` and tick counter 0, in clock mode,
or in stopwatch mode with the run flag set, `n` consecutive `timer0_ISR` calls leave the
counter at `n % 20` and the time at `(S / 3600, (S / 60) % 60, S % 60)` with
`S = (n / 20) % 86400`. -/
theorem elapsed_time (n : Nat) (st : State)
    (ht : st.time = { hour := 0, minute := 0, second := 0 }) (hc : st.count = 0)
    (hm : st.mode = CLOCK ∨ (st.mode = STOPWATCH ∧ st.running = true)) :
    (Nat.iterate timer0_ISR n st).count = n % 20 ∧
    (Nat.iterate timer0_ISR n st).time
      = { hour := (n / 20) % 86400 / 3600
          minute := ((n / 20) % 86400 / 60) % 60
          second := (n / 20) % 86400 % 60 } := by
  have hlt : st.count < 20 := by omega
  obtain ⟨-, -, ic, it⟩ := timer0_ISR_iterate_fields n st hlt
  have hadv : st.mode = false ∨ st.running = true := by
    rcases hm with h | ⟨-, h⟩
    · exact Or.inl h
    · exact Or.inr h
  rw [ic, it, if_pos hadv, hc, ht, Nat.zero_add,
    update_time_iterate_eq (n / 20) _ (by decide)]
  refine ⟨rfl, ?_⟩
  simp [ClockTime.ofSeconds, ClockTime.toSeconds]

/-- Witness of C16: 73220 ticks (3661 seconds) after the loop entry the clock shows
`(1,1,1)` and the tick counter is 0. -/
theorem elapsed_time_witness :
    (Nat.iterate timer0_ISR 73220 loop_entry).count = 0 ∧
    (Nat.iterate timer0_ISR 73220 loop_entry).time
      = { hour := 1, minute := 1, second := 1 } :=
  elapsed_time 73220 loop_entry rfl rfl (Or.inl rfl)

/-- C17. Frame of the mode switch.  A pass that reads the mode switch LOW and the button
HIGH writes only the mode and the time: run flag, tick counter and timer registers keep
their values.  Hence a running stopwatch still has its run flag set after leaving
stopwatch mode, any number of interrupts, and re-entering it, and the tick counter is
not restarted by the reset of the time. -/
theorem mode_switch_frame (st : State) (n : Nat) :
    main_loop_inputs LOW HIGH st
      = { st with mode := !st.mode, time := { hour := 0, minute := 0, second := 0 } } ∧
    (main_loop_inputs LOW HIGH st).running = st.running ∧
    (main_loop_inputs LOW HIGH st).count = st.count ∧
    (main_loop_inputs LOW HIGH st).sfr = st.sfr ∧
    (st.mode = STOPWATCH → st.running = true →
      (main_loop_inputs LOW HIGH st).mode = CLOCK ∧
      (main_loop_inputs LOW HIGH
        (Nat.iterate timer0_ISR n (main_loop_inputs LOW HIGH st))).mode = STOPWATCH ∧
      (main_loop_inputs LOW HIGH
        (Nat.iterate timer0_ISR n (main_loop_inputs LOW HIGH st))).running = true) := by
  have h1 := main_loop_inputs_switch st
  refine ⟨h1, by rw [h1], by rw [h1], by rw [h1], ?_⟩
  intro hm hr
  obtain ⟨im, ir⟩ := timer0_ISR_iterate_mode_running n (main_loop_inputs LOW HIGH st)
  rw [main_loop_inputs_switch (Nat.iterate timer0_ISR n (main_loop_inputs LOW HIGH st))]
  simp only [im, ir]
  rw [h1]
  simp [hm, hr]

/-- Witness of C17: a running stopwatch with 7 ticks counted leaves stopwatch mode, 45
interrupts pass, and it re-enters stopwatch mode with the run flag still set. -/
theorem mode_switch_frame_witness :
    (main_loop_inputs LOW HIGH
      { loop_entry with mode := STOPWATCH, running := true, count := 7 }).count = 7 ∧
    (main_loop_inputs LOW HIGH (Nat.iterate timer0_ISR 45 (main_loop_inputs LOW HIGH
      { loop_entry with mode := STOPWATCH, running := true, count := 7 }))).running = true :=
  ⟨(mode_switch_frame { loop_entry with mode := STOPWATCH, running := true, count := 7 } 45).2.2.1,
   ((mode_switch_frame { loop_entry with mode := STOPWATCH, running := true, count := 7 } 45).2.2.2.2
      rfl rfl).2.2⟩

/-- C18. The display is unambiguous: two valid times for which `display_time` drives the
same sequence of six segment-bus patterns (from any entry states of the pins) are equal.
The two facts behind it: `SEGMENT_CODE` is injective on `0..9`, and the digit buffer
`[d0, d1, d2, d3, d4, d5]` of a time determines it by `h = 10*d0 + d1`, `m = 10*d2 + d3`,
`s = 10*d4 + d5`. -/
theorem display_unambiguous (t1 t2 : ClockTime) (hv1 : t1.Valid) (hv2 : t2.Valid) :
    (∀ p1 p2 : Ports, display_time_patterns t1 p1 = display_time_patterns t2 p2 → t1 = t2) ∧
    (∀ p1 : Ports, (display_time_patterns t1 p1).isSome = true) ∧
    (∀ a < 10, ∀ b < 10, SEGMENT_CODE[a]? = SEGMENT_CODE[b]? → a = b) ∧
    (∀ d0 d1 d2 d3 d4 d5 : Nat, display_time_digits t1 = [d0, d1, d2, d3, d4, d5] →
      t1.hour = 10 * d0 + d1 ∧ t1.minute = 10 * d2 + d3 ∧ t1.second = 10 * d4 + d5) := by
  refine ⟨?_, ?_, SEGMENT_CODE_injective, ?_⟩
  · intro p1 p2 h
    obtain ⟨cs1, hp1, hl1⟩ := display_time_patterns_lookups t1 hv1 p1
    obtain ⟨cs2, hp2, hl2⟩ := display_time_patterns_lookups t2 hv2 p2
    rw [hp1, hp2] at h
    have hcs : cs1 = cs2 := Option.some.inj h
    apply display_time_lookups_injective t1 t2 hv1 hv2
    rw [← hl1, ← hl2, hcs]
  · intro p1
    obtain ⟨cs1, hp1, -⟩ := display_time_patterns_lookups t1 hv1 p1
    rw [hp1]
    rfl
  · intro d0 d1 d2 d3 d4 d5 h
    simp only [display_time_digits, List.cons.injEq, and_true] at h
    omega

/-- Witness of C18: the time `(12,34,56)` shown from two different entry states of the pins
drives the same six patterns, and the times `(12,34,56)` and `(12,34,57)` drive different
ones. -/
theorem display_unambiguous_witness :
    display_time_patterns { hour := 12, minute := 34, second := 56 }
        { DIGIT1 := true, DIGIT2 := true, DIGIT3 := true, DIGIT4 := true, DIGIT5 := true,
          DIGIT6 := true, SEGMENT_PORT := 0xFF }
      = display_time_patterns { hour := 12, minute := 34, second := 56 }
        { DIGIT1 := true, DIGIT2 := true, DIGIT3 := true, DIGIT4 := true, DIGIT5 := true,
          DIGIT6 := true, SEGMENT_PORT := 0x00 } ∧
    ({ hour := 12, minute := 34, second := 56 } : ClockTime)
      = { hour := 12, minute := 34, second := 56 } ∧
    display_time_patterns { hour := 12, minute := 34, second := 56 }
        { DIGIT1 := true, DIGIT2 := true, DIGIT3 := true, DIGIT4 := true, DIGIT5 := true,
          DIGIT6 := true, SEGMENT_PORT := 0xFF }
      ≠ display_time_patterns { hour := 12, minute := 34, second := 57 }
        { DIGIT1 := true, DIGIT2 := true, DIGIT3 := true, DIGIT4 := true, DIGIT5 := true,
          DIGIT6 := true, SEGMENT_PORT := 0xFF } :=
  ⟨by decide,
   (display_unambiguous { hour := 12, minute := 34, second := 56 }
      { hour := 12, minute := 34, second := 56 } (by decide) (by decide)).1
      { DIGIT1 := true, DIGIT2 := true, DIGIT3 := true, DIGIT4 := true, DIGIT5 := true,
        DIGIT6 := true, SEGMENT_PORT := 0xFF }
      { DIGIT1 := true, DIGIT2 := true, DIGIT3 := true, DIGIT4 := true, DIGIT5 := true,
        DIGIT6 := true, SEGMENT_PORT := 0x00 } (by decide),
   fun h => absurd
     ((display_unambiguous { hour := 12, minute := 34, second := 56 }
        { hour := 12, minute := 34, second := 57 } (by decide) (by decide)).1 _ _ h)
     (by decide)⟩

/-- C19, counterexample.  From the bytes `(200,255,0)`, 3601 calls of `update_time` give
`(200,59,1)`: the minute byte 255 wraps to 0 at the 60th call without a carry into the
hour, and the hour byte 200 is still out of range 3541 calls later. -/
theorem recovery_3601_counterexample :
    Nat.iterate update_time 3601 { hour := 200, minute := 255, second := 0 }
      = { hour := 200, minute := 59, second := 1 } ∧
    ¬ (Nat.iterate update_time 3601 { hour := 200, minute := 255, second := 0 }).hour < 24 := by
  have h59 : Nat.iterate update_time 59 { hour := 200, minute := 255, second := 0 }
      = { hour := 200, minute := 255, second := 59 } :=
    update_time_iterate_seconds 59 _ (by decide)
  have h60 : Nat.iterate update_time 60 { hour := 200, minute := 255, second := 0 }
      = { hour := 200, minute := 0, second := 0 } := by
    rw [Function.iterate_succ_apply', h59]
    decide
  have h3541 : Nat.iterate update_time 3541 { hour := 200, minute := 0, second := 0 }
      = { hour := 200, minute := 59, second := 1 } :=
    update_time_iterate_minutes 3541 _ (by decide) (by decide) (by decide)
  have e : Nat.iterate update_time 3601 { hour := 200, minute := 255, second := 0 }
      = { hour := 200, minute := 59, second := 1 } := by
    rw [show 3601 = 3541 + 60 from rfl, Function.iterate_add_apply, h60, h3541]
  refine ⟨e, ?_⟩
  rw [e]
  decide

/-- C19, amended.  From every triple of values of hour, minute and second (in particular
every triple of bytes, in or out of range), after 3661 consecutive `update_time` calls the
time satisfies `hour < 24`, `minute < 60` and `second < 60`, and it stays in range under
every further call.  The bound is reached: from `(200,255,255)` the time after 3660 calls
is `(200,59,59)`. -/
theorem recovery_3661 (t : ClockTime) (k : Nat) :
    (Nat.iterate update_time (3661 + k) t).hour < 24 ∧
    (Nat.iterate update_time (3661 + k) t).minute < 60 ∧
    (Nat.iterate update_time (3661 + k) t).second < 60 ∧
    Nat.iterate update_time 3660 { hour := 200, minute := 255, second := 255 }
      = { hour := 200, minute := 59, second := 59 } := by
  have hv := update_time_recover (3661 + k) t (by omega)
  refine ⟨hv.1, hv.2.1, hv.2.2, ?_⟩
  have h1 : update_time { hour := 200, minute := 255, second := 255 }
      = { hour := 200, minute := 255, second := 0 } := by decide
  have h59 : Nat.iterate update_time 59 { hour := 200, minute := 255, second := 0 }
      = { hour := 200, minute := 255, second := 59 } :=
    update_time_iterate_seconds 59 _ (by decide)
  have h60 : update_time { hour := 200, minute := 255, second := 59 }
      = { hour := 200, minute := 0, second := 0 } := by decide
  have h3599 : Nat.iterate update_time 3599 { hour := 200, minute := 0, second := 0 }
      = { hour := 200, minute := 59, second := 59 } :=
    update_time_iterate_minutes 3599 _ (by decide) (by decide) (by decide)
  have h61 : Nat.iterate update_time 61 { hour := 200, minute := 255, second := 255 }
      = { hour := 200, minute := 0, second := 0 } := by
    rw [Function.iterate_succ_apply update_time 60, h1,
      Function.iterate_succ_apply' update_time 59, h59, h60]
  rw [Function.iterate_add_apply update_time 3599 61, h61, h3599]

end DigitalClock
